import Mathlib

/-!
# Verification of the `little-programs` reporting scripts

A shallow embedding, in Lean 4, of the data model and operations of the
repository's six Python scripts
(`charts_example.py`, `excel_export_example.py`, `pdf_report_example.py`,
`sales_analysis_excel_report.py`, `styled_excel_analysis.py`,
`test_sales_report.py`), together with theorems settling the stated claims
about them.

Modelling conventions:
* A pandas `DataFrame` is a `Table`: a list of column names (`header`) and a
  list of rows; each row is an association list from column name to
  `CellValue`.  A column name absent from a row models a `NaN` entry in that
  row; whether a column exists at all in the frame is tracked by `header`.
* Numeric values are rationals (`ℚ`); `CellValue.na` models `NaN`/missing.
* Pandas column sums use `skipna=True` (missing/`NaN` counts as `0`,
  an empty or all-`NaN` column sums to `0`), exactly as `Series.sum` does.
* Pandas/numpy division never raises on a zero denominator: it yields a
  non-finite float (`inf`, `-inf` or `NaN`) with at most a warning.  We model
  every non-finite result of an elementwise division as `na`; scalar script
  ratios guarded by the scripts themselves are modelled with the same guards.
* Script executions are modelled as functions from the pre-loaded table to a
  `RunResult`: the list of output files written (in order), and the Python
  exception, if any, that terminated the run.  Calls into matplotlib /
  openpyxl / reportlab that cannot raise for data reasons are treated as
  total; the run models establish the control flow around the script-level
  operations that can raise (column access, `iloc`, `describe` on an empty
  selection, use of a never-assigned variable).
-/

/-- A single cell of a data table: a `NaN`/missing value, a numeric value
(modelled as a rational), or a string. -/
inductive CellValue where
  | na : CellValue
  | num : ℚ → CellValue
  | str : String → CellValue
deriving DecidableEq, Repr

/-- A row of a table: an association list from column name to value.
A name absent from the list models a `NaN` entry. -/
abbrev Row := List (String × CellValue)

/-- A rectangular data table (the model of a pandas `DataFrame`): the list of
column names and the list of rows. -/
structure Table where
  header : List String
  rows : List Row
deriving DecidableEq, Repr

/-- The value of row `r` in column `c`; `na` when the row has no entry for
`c` (a `NaN` entry). -/
def Row.cell (r : Row) (c : String) : CellValue :=
  (r.lookup c).getD CellValue.na

/-- The numeric content of a cell, if any. -/
def numVal? : CellValue → Option ℚ
  | CellValue.num q => some q
  | _ => none

/-- The contribution of a cell to a pandas `skipna` sum: its numeric value,
or `0` for `NaN` and non-numeric entries. -/
def skipnaVal : CellValue → ℚ
  | CellValue.num q => q
  | _ => 0

/-- `Series.sum()` of column `c` over `rows` (pandas default `skipna=True`). -/
def sumCol (rows : List Row) (c : String) : ℚ :=
  (rows.map (fun r => skipnaVal (r.cell c))).sum

/-- The number of non-`NaN` numeric entries of column `c` (pandas `count`). -/
def countCol (rows : List Row) (c : String) : ℕ :=
  (rows.filter (fun r => (numVal? (r.cell c)).isSome)).length

/-- `Series.mean()` of column `c`: `NaN` when there is no numeric entry.
(Pandas returns `NaN`, not an exception, for an empty mean.) -/
def meanCol (rows : List Row) (c : String) : CellValue :=
  if countCol rows c = 0 then CellValue.na
  else CellValue.num (sumCol rows c / (countCol rows c : ℚ))

/-- Pandas elementwise division of two cells.  A zero denominator yields a
non-finite float (`inf`, `-inf` or `NaN`) — never an exception — which we
model as `na`; division involving `NaN` is `NaN`. -/
def divVal : CellValue → CellValue → CellValue
  | CellValue.num a, CellValue.num b =>
      if b = 0 then CellValue.na else CellValue.num (a / b)
  | _, _ => CellValue.na

/-- The first column of `cols` that is not a column of `t` — the column whose
access would raise the script's first `KeyError` — if any. -/
def firstMissing (t : Table) (cols : List String) : Option String :=
  cols.find? (fun c => !(t.header.contains c))

/-- A Python exception terminating a script run. -/
inductive PyError where
  | keyError : String → PyError
  | indexError : PyError
  | valueError : PyError
deriving DecidableEq, Repr

/-- The observable outcome of one script execution: the output files written
to disk, in order, and the exception (if any) that terminated the run. -/
structure RunResult where
  files : List String
  error : Option PyError
deriving DecidableEq, Repr

/-! ## Group-by-day aggregation (`charts_example.py` lines 46–55,
`excel_export_example.py` lines 66–78, `pdf_report_example.py` lines 45–55)

Each of the three daily scripts runs
`df.groupby('Day').agg({...: 'sum'}).reset_index()` and then adds ratio
columns.  `groupby` sorts the group keys ascending and drops `NaN` keys
(pandas defaults `sort=True`, `dropna=True`). -/

/-- The group key of a row: its numeric `Day` value (dates are modelled as
rationals, e.g. POSIX timestamps after `pd.to_datetime`). -/
def dayKey (r : Row) : Option ℚ :=
  numVal? (r.cell "Day")

/-- The numeric `Day` values of the rows, with multiplicity,
in row order (`NaN` days dropped, as `groupby(dropna=True)` does). -/
def dayVals (rows : List Row) : List ℚ :=
  rows.filterMap dayKey

/-- The rows of the group for day `d`. -/
def rowsOnDay (rows : List Row) (d : ℚ) : List Row :=
  rows.filter (fun r => dayKey r = some d)

/-- The distinct `Day` keys, sorted ascending — the index of the groupby
result (pandas `sort=True`). -/
def dayKeys (rows : List Row) : List ℚ :=
  List.insertionSort (· ≤ ·) (dayVals rows).dedup

/-- One row of the groupby result: the day, followed by the per-group sums of
the aggregated columns (the keys of the `.agg({...})` dict, in order). -/
def groupDayRow (aggCols : List String) (rows : List Row) (d : ℚ) : Row :=
  ("Day", CellValue.num d) ::
    aggCols.map (fun c => (c, CellValue.num (sumCol (rowsOnDay rows d) c)))

/-- `df.groupby('Day').agg({c : 'sum' for c in aggCols}).reset_index()`. -/
def groupDaySum (aggCols : List String) (rows : List Row) : List Row :=
  (dayKeys rows).map (groupDayRow aggCols rows)

/-- `daily['AOV'] = daily['Gross sales'] / daily['Orders']` — the elementwise
AOV column appended to the daily table (`charts_example.py` line 54,
`excel_export_example.py` line 75, `pdf_report_example.py` line 55). -/
def withAOV (rows : List Row) : List Row :=
  rows.map (fun r =>
    r ++ [("AOV", divVal (r.cell "Gross sales") (r.cell "Orders"))])

/-- The `.agg` dict keys of `charts_example.py` (lines 46–52), in order. -/
def chartsAggCols : List String :=
  ["Orders", "Gross sales", "Net sales", "Gross profit", "Discounts"]

/-- The `daily` table of `charts_example.py`, before the ratio columns. -/
def chartsDaily (t : Table) : List Row :=
  groupDaySum chartsAggCols t.rows

/-- The `.agg` dict keys of `pdf_report_example.py` (lines 45–53), in order. -/
def pdfAggCols : List String :=
  ["Orders", "Gross sales", "Net sales", "Gross profit", "Discounts",
   "Quantity ordered"]

/-- The `daily` table of `pdf_report_example.py`. -/
def pdfDaily (t : Table) : List Row :=
  groupDaySum pdfAggCols t.rows

/-- The `.agg` dict keys of `excel_export_example.py` (lines 66–73). -/
def excelAggCols : List String :=
  ["Orders", "Gross sales", "Discounts", "Net sales", "Gross profit",
   "Quantity ordered"]

/-- The `daily` table of `excel_export_example.py`. -/
def excelDaily (t : Table) : List Row :=
  groupDaySum excelAggCols t.rows

/-- `total_orders = daily['Orders'].sum()` (`pdf_report_example.py` line 58). -/
def pdf_total_orders (t : Table) : ℚ :=
  sumCol (pdfDaily t) "Orders"

/-- `total_gross_sales = daily['Gross sales'].sum()`
(`pdf_report_example.py` line 59). -/
def pdf_total_gross_sales (t : Table) : ℚ :=
  sumCol (pdfDaily t) "Gross sales"

/-- `avg_aov = total_gross_sales / total_orders` (`pdf_report_example.py`
line 62).  This is numpy scalar division: a zero denominator yields a
non-finite float with a warning, never an exception; the `ℚ` convention
`x / 0 = 0` stands in for that non-finite value and the claims about
`pdf_avg_aov` assume a nonzero denominator. -/
def pdf_avg_aov (t : Table) : ℚ :=
  pdf_total_gross_sales t / pdf_total_orders t

/-! ## Cell styling (`sales_analysis_excel_report.py` lines 44–93 and 189–221;
`styled_excel_analysis.py` lines 30–81 has the identical `style_cell`) -/

/-- The fills a cell can receive from `style_cell`: the dark-maroon header
fill, the maroon data fill, or the lighter alternating-row fill. -/
inductive FillKind where
  | header | data | alt
deriving DecidableEq, Repr

/-- The fonts `style_cell` applies. -/
inductive FontKind where
  | headerFont | dataFont
deriving DecidableEq, Repr

/-- Horizontal alignments `style_cell` applies. -/
inductive HAlign where
  | center | left | right
deriving DecidableEq, Repr

/-- The style state `style_cell` leaves on a cell. -/
structure CellStyle where
  fill : FillKind
  font : FontKind
  halign : HAlign
  border : Bool
  numberFormat : Option String
deriving DecidableEq, Repr

/-- `currency_format` (`sales_analysis_excel_report.py` line 74). -/
def currency_format : String :=
  "_($* #,##0.00_);_($* (#,##0.00);_($* \x22-\x22??_);_(@_)"

/-- `number_format` (line 75). -/
def number_format : String := "#,##0"

/-- `decimal_format` (line 76). -/
def decimal_format : String := "#,##0.00"

/-- `style_cell(cell, is_header, is_alt_row, is_number, fmt)`
(`sales_analysis_excel_report.py` lines 78–91): header cells get the header
fill/font and centered wrap alignment; other cells get the data fill (or the
alternating fill on alternate rows), the data font, and right alignment for
numbers, left otherwise; every styled cell gets the beige border; the number
format is set exactly when `fmt` is given. -/
def style_cell (is_header is_alt_row is_number : Bool) (fmt : Option String) :
    CellStyle :=
  if is_header then
    { fill := FillKind.header, font := FontKind.headerFont,
      halign := HAlign.center, border := true, numberFormat := fmt }
  else
    { fill := if is_alt_row then FillKind.alt else FillKind.data,
      font := FontKind.dataFont,
      halign := if is_number then HAlign.right else HAlign.left,
      border := true, numberFormat := fmt }

/-- Whether `sub` occurs as a substring (Python `sub in col_name`). -/
def containsSub (sub hay : String) : Bool :=
  decide (sub.data <:+: hay.data)

/-- The number format `write_data_table` picks for a numeric value in column
`col_name` (`sales_analysis_excel_report.py` lines 210–215). -/
def fmtForColumn (col_name : String) : String :=
  if containsSub "Price" col_name || containsSub "Sales" col_name then
    currency_format
  else if containsSub "Units" col_name then number_format
  else decimal_format

/-- One written worksheet cell: its position, the value stored, and the style
`style_cell` left on it (`none` when `style_cell` was never called on it). -/
structure StyledCell where
  row : ℕ
  col : ℕ
  value : CellValue
  style : Option CellStyle
deriving DecidableEq, Repr

/-- The body of the `write_data_table` data loop for one cell
(`sales_analysis_excel_report.py` lines 203–220): `NaN` becomes the empty
string and receives no styling at all; a numeric value is stored and styled
as a number with the column's format; anything else is stored and styled as
text with no format. -/
def writeDataCell (row_idx col_idx : ℕ) (col_name : String) (v : CellValue) :
    StyledCell :=
  match v with
  | CellValue.na =>
      { row := row_idx, col := col_idx, value := CellValue.str "",
        style := none }
  | CellValue.num q =>
      { row := row_idx, col := col_idx, value := CellValue.num q,
        style := some (style_cell false (decide (row_idx % 2 = 0)) true
          (some (fmtForColumn col_name))) }
  | CellValue.str s =>
      { row := row_idx, col := col_idx, value := CellValue.str s,
        style := some (style_cell false (decide (row_idx % 2 = 0)) false
          none) }

/-- The header row written by `write_data_table` (lines 195–197), starting at
column index `ci`. -/
def writeHeaderCells (row_idx : ℕ) : ℕ → List String → List StyledCell
  | _, [] => []
  | ci, c :: rest =>
      { row := row_idx, col := ci, value := CellValue.str c,
        style := some (style_cell true false false none) } ::
        writeHeaderCells row_idx (ci + 1) rest

/-- The cells of one data row of `write_data_table`, starting at column
index `ci`. -/
def writeRowCells (r : Row) (row_idx : ℕ) : ℕ → List String → List StyledCell
  | _, [] => []
  | ci, c :: rest =>
      writeDataCell row_idx ci c (r.cell c) :: writeRowCells r row_idx (ci + 1) rest

/-- The cells of the data rows of `write_data_table`, the first at row
index `ri`. -/
def writeRowsCells (columns : List String) : ℕ → List Row → List StyledCell
  | _, [] => []
  | ri, r :: rest =>
      writeRowCells r ri 1 columns ++ writeRowsCells columns (ri + 1) rest

/-- `write_data_table(ws, df, start_row, columns)`
(`sales_analysis_excel_report.py` lines 189–221) as the list of worksheet
cells it writes: a styled header row at `start_row`, then one row per
DataFrame row. -/
def write_data_table (rows : List Row) (columns : List String)
    (start_row : ℕ) : List StyledCell :=
  writeHeaderCells start_row 1 columns ++
    writeRowsCells columns (start_row + 1) rows

/-! ## `auto_fit_columns` (`sales_analysis_excel_report.py` lines 129–142;
`styled_excel_analysis.py` lines 99–111 is the same computation with
defaults 12/30)

The width computation is parametric in Python's `len(str(value))`; the bound
property holds for every such length function, so the model takes it as a
parameter `strLen`. -/

/-- Python truthiness of a cell value (`if cell.value:`): `None` and empty
cells are absent (`Option.none` below); `0` and `''` are falsy; float `NaN`
is truthy. -/
def truthy : CellValue → Bool
  | CellValue.na => true
  | CellValue.num q => decide (q ≠ 0)
  | CellValue.str s => decide (s ≠ "")

/-- `max_length` for one column: the largest `strLen` over the truthy cells,
starting from `0` (lines 132–139). -/
def colMaxLen (strLen : CellValue → ℕ) (col : List (Option CellValue)) : ℕ :=
  col.foldl
    (fun m v =>
      match v with
      | some cv => if truthy cv then max m (strLen cv) else m
      | none => m) 0

/-- `adjusted_width = min(max(max_length + 2, min_width), max_width)`
(line 141). -/
def adjustedWidth (strLen : CellValue → ℕ) (minW maxW : ℕ)
    (col : List (Option CellValue)) : ℕ :=
  min (max (colMaxLen strLen col + 2) minW) maxW

/-- `auto_fit_columns(ws, min_width, max_width)`: the widths set on the
worksheet's columns, one per column. -/
def auto_fit_columns (strLen : CellValue → ℕ)
    (ws : List (List (Option CellValue))) (minW maxW : ℕ) : List ℕ :=
  ws.map (adjustedWidth strLen minW maxW)

/-! ## `hex_to_rgb` (`pdf_report_example.py` lines 35–37) -/

/-- The value of one hexadecimal digit as `int(·, 16)` reads it: the ASCII
decimal digits (code points 48–57) carry their decimal value, and the six
letters in either case carry 10–15. -/
def hexDigitVal (c : Char) : Option ℕ :=
  if 48 ≤ c.toNat ∧ c.toNat ≤ 57 then some (c.toNat - 48)
  else
    match c with
    | 'a' => some 10 | 'b' => some 11 | 'c' => some 12
    | 'd' => some 13 | 'e' => some 14 | 'f' => some 15
    | 'A' => some 10 | 'B' => some 11 | 'C' => some 12
    | 'D' => some 13 | 'E' => some 14 | 'F' => some 15
    | _ => none

/-- Accumulator loop of `int(s, 16)` over the digits. -/
def parseHexAux : ℕ → List Char → Option ℕ
  | acc, [] => some acc
  | acc, c :: rest =>
      match hexDigitVal c with
      | some d => parseHexAux (16 * acc + d) rest
      | none => none

/-- `int(s, 16)` on a string of hex digits: fails on the empty string and on
any non-hex-digit character (signs and whitespace, which `int` would also
accept, do not occur in the repository's color strings). -/
def parseHex : List Char → Option ℕ
  | [] => none
  | c :: rest => parseHexAux 0 (c :: rest)

/-- The Python slice `l[i:j]` (for `0 ≤ i ≤ j`). -/
def pySlice (l : List Char) (i j : ℕ) : List Char :=
  (l.drop i).take (j - i)

/-- `hex_to_rgb(hex_color)` (`pdf_report_example.py` lines 35–37):
strip leading `#` characters (`lstrip('#')`), read the three digit pairs at
positions 0–2, 2–4, 4–6, and divide each by 255.  A failing `int` call
(`ValueError`) is `none`. -/
def lstripHash (s : String) : List Char :=
  s.data.dropWhile (fun c => c = '#')

def hex_to_rgb (s : String) : Option (ℚ × ℚ × ℚ) :=
  match parseHex (pySlice (lstripHash s) 0 2),
      parseHex (pySlice (lstripHash s) 2 4),
      parseHex (pySlice (lstripHash s) 4 6) with
  | some r, some g, some b =>
      some ((r : ℚ) / 255, (g : ℚ) / 255, (b : ℚ) / 255)
  | _, _, _ => none

/-! ## `sales_analysis_excel_report.py`: derived `Size` column and key metrics
(lines 227–252) -/

/-- Whether a character list matches the regex fragment `\d+[RSL]?` anchored
at end of string: one or more digits, then optionally one of `R`, `S`, `L`. -/
def matchesNumTail : List Char → Bool
  | [] => false
  | [c] => c.isDigit || c = 'R' || c = 'S' || c = 'L'
  | c :: rest => c.isDigit && matchesNumTail rest

/-- `re.search` for the pattern `-(\d+[RSL]?)$`: the capture group of the
leftmost match — the tail after the first `-` whose remainder is digits with
an optional `R`/`S`/`L` — if any. -/
def findDashTail : List Char → Option (List Char)
  | [] => none
  | c :: rest =>
      if c = '-' && matchesNumTail rest then some rest
      else findDashTail rest

/-- Python `s[-3:]`: the last three characters (the whole string when it is
shorter). -/
def lastThree (s : String) : String :=
  String.mk (s.data.drop (s.data.length - 3))

/-- The derived `Size` of one SKU cell
(`df['Size'] = df['SKU'].str.extract(r'-(\d+[RSL]?)$')[0].fillna(df['SKU'].str[-3:])`,
line 230): the regex capture when the SKU is a string that matches, otherwise
its last three characters; the `.str` accessor turns a non-string SKU into
`NaN`, which `fillna` with another `NaN` leaves as `NaN`. -/
def sizeOfSku : CellValue → CellValue
  | CellValue.str s =>
      match findDashTail s.data with
      | some tail => CellValue.str (String.mk tail)
      | none => CellValue.str (lastThree s)
  | _ => CellValue.na

/-- The DataFrame after `df['Size'] = ...`: every row gains a `Size` entry
derived from its `SKU`.  (The new binding is put at the head of the
association list so that `Row.cell "Size"` sees it; the scripts never rely
on the positional order of the full frame's columns.) -/
def addSizeColumn (t : Table) : Table :=
  { header := t.header ++ ["Size"],
    rows := t.rows.map (fun r => ("Size", sizeOfSku (Row.cell r "SKU")) :: r) }

/-- `Series.idxmax` made row-valued: the first row whose column `c` attains
the maximum numeric value, skipping `NaN`s, together with that value.
`none` when the column has no numeric entry (where pandas `idxmax` would
raise — the script only calls it under a guard that rules this out). -/
def idxmaxRow (rows : List Row) (c : String) : Option (Row × ℚ) :=
  rows.foldl
    (fun best r =>
      match numVal? (r.cell c) with
      | some q =>
          match best with
          | none => some (r, q)
          | some (b, m) => if q > m then some (r, q) else some (b, m)
      | none => best) none

/-- `top_seller_7d = df.loc[df['7D Units'].idxmax(), 'Size'] if
total_7d_units > 0 else 'N/A'` (line 246), stated over the frame with the
derived `Size` column; `ucol` is the period's units column.  The `na` in the
unreachable inner branch is arbitrary: a positive column sum guarantees a
numeric entry, so `idxmaxRow` succeeds whenever the guard holds. -/
def topSeller (t : Table) (ucol : String) : CellValue :=
  if sumCol t.rows ucol > 0 then
    match idxmaxRow (addSizeColumn t).rows ucol with
    | some (r, _) => r.cell "Size"
    | none => CellValue.na
  else CellValue.str "N/A"

/-- `growth_7_to_30 = ((total_30d_units / total_7d_units * 30/7) - 1) * 100
if total_7d_units > 0 else 0` (line 327). -/
def growth_7_to_30 (t : Table) : ℚ :=
  if sumCol t.rows "7D Units" > 0 then
    (sumCol t.rows "30D Units" / sumCol t.rows "7D Units" * 30 / 7 - 1) * 100
  else 0

/-- `margin_pct = (total_90d_net / total_90d_sales * 100) if
total_90d_sales > 0 else 0` (line 461). -/
def margin_pct (t : Table) : ℚ :=
  if sumCol t.rows "90D Sales" > 0 then
    sumCol t.rows "90D Net Sales" / sumCol t.rows "90D Sales" * 100
  else 0

/-- `weekly_rate = total_90d_sales / 13 if total_90d_sales > 0 else 0`
(line 586). -/
def weekly_rate (t : Table) : ℚ :=
  if sumCol t.rows "90D Sales" > 0 then sumCol t.rows "90D Sales" / 13 else 0

/-- `velocity_change = ((recent_rate / weekly_rate) - 1) * 100 if
weekly_rate > 0 else 0` with `recent_rate = total_7d_sales` (lines 587–588). -/
def velocity_change (t : Table) : ℚ :=
  if weekly_rate t > 0 then (sumCol t.rows "7D Sales" / weekly_rate t - 1) * 100
  else 0

/-! ## Script run models (which files each script writes, and where it can
raise) -/

/-- The columns `sales_analysis_excel_report.py` accesses unconditionally, in
first-access order: `SKU` for the `Size` extraction (line 230), then the nine
period sums (lines 233–241), then the three price means (lines 243–245).
The `Product Name`, `Category` and `Color` accesses are each guarded by an
`in df.columns` test (lines 250–252) and for present columns use `.iloc[0]`,
which raises `IndexError` on an empty frame. -/
def salesRequiredCols : List String :=
  ["SKU",
   "7D Units", "7D Sales", "7D Net Sales",
   "30D Units", "30D Sales", "30D Net Sales",
   "90D Units", "90D Sales", "90D Net Sales",
   "7D Avg Price", "30D Avg Price", "90D Avg Price"]

/-- The run of `sales_analysis_excel_report.py` on the pre-loaded frame:
a missing required column raises `KeyError` before anything is written; on an
empty frame, `iloc[0]` on whichever of the product-info columns is present
raises `IndexError` (lines 250–252); otherwise the five sheets are built —
every ratio and `idxmax` on the way is guarded (lines 246–248, 327, 461,
586–588), so no zero denominator or empty selection stops the run — and the
single workbook `sales_analysis_report.xlsx` is saved (line 598). -/
def salesAnalysisRun (t : Table) : RunResult :=
  match firstMissing t salesRequiredCols with
  | some c => { files := [], error := some (PyError.keyError c) }
  | none =>
      if t.rows.isEmpty &&
          (t.header.contains "Product Name" || t.header.contains "Category"
            || t.header.contains "Color") then
        { files := [], error := some PyError.indexError }
      else
        { files := ["sales_analysis_report.xlsx"], error := none }

/-- The group keys of `df.groupby('New or returning customer')`
(`charts_example.py` line 159): the distinct non-`NaN` values of the
customer column (key order is irrelevant to the run model, which only needs
the set of segments). -/
def customerKeys (rows : List Row) : List CellValue :=
  (rows.filterMap (fun r =>
    match Row.cell r "New or returning customer" with
    | CellValue.na => none
    | v => some v)).dedup

/-- The rows of one customer segment. -/
def customerRowsOn (rows : List Row) (k : CellValue) : List Row :=
  rows.filter (fun r => Row.cell r "New or returning customer" = k)

/-- Whether the two `pie` calls of chart 4 (`charts_example.py`
lines 164–178) succeed: `explode=(0.02, 0.02)` demands exactly two wedges —
one per customer segment — or matplotlib raises
`ValueError("'explode' must be of length 'x'")`, and matplotlib also rejects
negative wedge values, so each segment's `Orders` sum (first pie) and
`Gross sales` sum (second pie) must be non-negative. -/
def pieChartOk (rows : List Row) : Bool :=
  decide ((customerKeys rows).length = 2)
  && (customerKeys rows).all
      (fun k => decide (0 ≤ sumCol (customerRowsOn rows k) "Orders"))
  && (customerKeys rows).all
      (fun k => decide (0 ≤ sumCol (customerRowsOn rows k) "Gross sales"))

/-- The run of `charts_example.py`: `df['Day']` (line 44) and the five
aggregated columns (lines 46–52) are accessed first; chart 1 then evaluates
`daily['Day'].iloc[-1]` (line 81), which raises `IndexError` when no row has
a valid day; charts 1–3 are saved; chart 4 accesses
`'New or returning customer'` (line 159), raising `KeyError` after three
files are already on disk when it is missing, and its `pie` calls with
`explode=(0.02, 0.02)` raise `ValueError` after the same three files unless
the customer groupby has exactly two segments with non-negative `Orders`
and `Gross sales` sums; charts 5–6 involve no further fallible access
(empty-subset means are `NaN`, not errors, and the heatmap guards its `NaN`
cells), so a completed run writes six PNGs (lines 84, 120, 151, 184, 222,
260). -/
def chartsExampleRun (t : Table) : RunResult :=
  match firstMissing t ("Day" :: chartsAggCols) with
  | some c => { files := [], error := some (PyError.keyError c) }
  | none =>
      if (dayKeys t.rows).isEmpty then
        { files := [], error := some PyError.indexError }
      else if !(t.header.contains "New or returning customer") then
        { files := ["chart_line_sales.png", "chart_bar_orders.png",
                    "chart_dual_axis.png"],
          error := some (PyError.keyError "New or returning customer") }
      else if !(pieChartOk t.rows) then
        { files := ["chart_line_sales.png", "chart_bar_orders.png",
                    "chart_dual_axis.png"],
          error := some PyError.valueError }
      else
        { files := ["chart_line_sales.png", "chart_bar_orders.png",
                    "chart_dual_axis.png", "chart_pie_customers.png",
                    "chart_comparison.png", "chart_heatmap.png"],
          error := none }

/-- The run of `pdf_report_example.py`: `df['Day']` (line 41) and the six
aggregated columns (lines 45–53) are accessed; the KPI ratios are numpy
scalar divisions that cannot raise; the three chart PNGs (lines 86, 101,
116) and the PDF (`doc.build`, line 268) are then written with no further
data-fallible step. -/
def pdfReportRun (t : Table) : RunResult :=
  match firstMissing t ("Day" :: pdfAggCols) with
  | some c => { files := [], error := some (PyError.keyError c) }
  | none =>
      { files := ["chart_daily_sales.png", "chart_daily_orders.png",
                  "chart_aov_trend.png", "november_kpi_report.pdf"],
        error := none }

/-- The run of `excel_export_example.py`: `df['Day']` (line 63), the six
aggregated columns (lines 66–73) and the customer-segment groupby column
(line 80) are all accessed before any write; the four sheets are then built
and the single workbook `november_2025_report.xlsx` saved (line 301). -/
def excelExportRun (t : Table) : RunResult :=
  match firstMissing t
      ("Day" :: excelAggCols ++ ["New or returning customer"]) with
  | some c => { files := [], error := some (PyError.keyError c) }
  | none =>
      { files := ["november_2025_report.xlsx"], error := none }

/-- Whether a column of `t` is numeric in the `select_dtypes(np.number)`
sense: every entry is a number or `NaN` (an all-`NaN` column loaded from CSV
is a float column). -/
def isNumericCol (t : Table) (c : String) : Bool :=
  t.rows.all (fun r =>
    match r.cell c with
    | CellValue.num _ => true
    | CellValue.na => true
    | CellValue.str _ => false)

/-- `numeric_cols` of `styled_excel_analysis.py` (line 155). -/
def numericCols (t : Table) : List String :=
  t.header.filter (isNumericCol t)

/-- The run of `styled_excel_analysis.py`: it adapts to any frame, but with
no numeric column `df[numeric_cols].describe()` (line 161) raises
`ValueError` (pandas cannot describe a frame without columns) before
anything is written; with at least one numeric column the four sheets are
built (all scalar corner cases are guarded or yield `NaN`) and the single
workbook `styled_analysis_report.xlsx` is saved (line 446). -/
def styledExcelRun (t : Table) : RunResult :=
  if (numericCols t).isEmpty then
    { files := [], error := some PyError.valueError }
  else
    { files := ["styled_analysis_report.xlsx"], error := none }

/-! ## The test harness (`test_sales_report.py` lines 14–25) -/

/-- The default CSV path of the harness (line 15). -/
def defaultCsvFile : String := "sample_sales_data.csv"

/-- `csv_file = 'sample_sales_data.csv'; if len(sys.argv) > 1: csv_file =
sys.argv[1]` — `argv` models `sys.argv[1:]`, the arguments after the program
name. -/
def chooseCsvFile (argv : List String) : String :=
  match argv with
  | [] => defaultCsvFile
  | a :: _ => a

/-- The harness run: read the chosen CSV into `df` (`load` models
`pd.read_csv` over the file system) and execute the text of
`sales_analysis_excel_report.py` in the harness's own context with `df`
bound to the loaded table (`exec(open(...).read())`, line 25). -/
def testHarnessRun (argv : List String) (load : String → Table) : RunResult :=
  salesAnalysisRun (load (chooseCsvFile argv))

/-! ## `sort_values(..., ascending=False)` and the period sheets
(`sales_analysis_excel_report.py` lines 348–353, 402–406, 453–457) -/

/-- The descending sort-key order on optional numeric keys: larger numbers
first, and rows with no numeric key (`NaN`) last
(pandas `na_position='last'`). -/
def keyGE : Option ℚ → Option ℚ → Bool
  | some x, some y => decide (y ≤ x)
  | some _, none => true
  | none, some _ => false
  | none, none => true

/-- The sort key of a row for `sort_values(c)`: its numeric value in `c`. -/
def rowKey (c : String) (r : Row) : Option ℚ :=
  numVal? (Row.cell r c)

/-- The row order realized by `sort_values(c, ascending=False)`. -/
def rowGE (c : String) (a b : Row) : Prop :=
  keyGE (rowKey c a) (rowKey c b) = true

instance (c : String) : DecidableRel (rowGE c) := fun _ _ =>
  instDecidableEqBool _ _

/-- `df.sort_values(c, ascending=False)`: a stable sort putting larger
values of `c` first and `NaN` last. -/
def sort_values_desc (c : String) (rows : List Row) : List Row :=
  List.insertionSort (rowGE c) rows

instance (c : String) : IsTotal Row (rowGE c) :=
  ⟨fun a b => by
    unfold rowGE
    rcases rowKey c a with _ | x <;> rcases rowKey c b with _ | y <;>
      simp [keyGE]
    exact le_total y x⟩

instance (c : String) : IsTrans Row (rowGE c) :=
  ⟨fun a b d h₁ h₂ => by
    unfold rowGE at h₁ h₂ ⊢
    revert h₁ h₂
    rcases rowKey c a with _ | x <;> rcases rowKey c b with _ | y <;>
      rcases rowKey c d with _ | z <;> intro h₁ h₂ <;> simp_all [keyGE]
    exact le_trans h₂ h₁⟩

/-- `df[cols].copy()`: the projection of each row to the listed columns. -/
def selectCols (rows : List Row) (cols : List String) : List Row :=
  rows.map (fun r => cols.map (fun c => (c, Row.cell r c)))

/-- `df.columns = dst`: positional renaming of a row's columns. -/
def renameRow (dst : List String) (r : Row) : Row :=
  dst.zip (r.map Prod.snd)

/-- The source columns of the 7-day sheet's table (line 351). -/
def period7Cols : List String :=
  ["Size", "7D Units", "7D Sales", "7D Net Sales", "7D Avg Price"]

/-- The source columns of the 30-day sheet's table (line 404). -/
def period30Cols : List String :=
  ["Size", "30D Units", "30D Sales", "30D Net Sales", "30D Avg Price"]

/-- The source columns of the 90-day sheet's table (line 455). -/
def period90Cols : List String :=
  ["Size", "90D Units", "90D Sales", "90D Net Sales", "90D Avg Price"]

/-- The display columns every period sheet renames to (lines 353, 406, 457). -/
def renamedPeriodCols : List String :=
  ["Size", "Units", "Gross Sales", "Net Sales", "Avg Price"]

/-- The generic period-sheet table: select the period's columns from the
frame (with its derived `Size`), sort by the period's units column
descending, and rename the columns for display. -/
def periodSheetRows (t : Table) (cols : List String) (ucol : String) :
    List Row :=
  (sort_values_desc ucol (selectCols (addSizeColumn t).rows cols)).map
    (renameRow renamedPeriodCols)

/-- `df_7d` as written to the 7-Day Performance sheet (lines 351–353). -/
def df_7d (t : Table) : List Row := periodSheetRows t period7Cols "7D Units"

/-- `df_30d` as written to the 30-Day Performance sheet (lines 404–406). -/
def df_30d (t : Table) : List Row := periodSheetRows t period30Cols "30D Units"

/-- `df_90d` as written to the 90-Day Performance sheet (lines 455–457). -/
def df_90d (t : Table) : List Row := periodSheetRows t period90Cols "90D Units"

/-- The values written by `write_data_table` into the sheet's `Units` column
(worksheet column 2), read in increasing row order: the data cells start at
row `start_row + 1 = 4` on every period sheet. -/
def writtenUnitsColumn (rows : List Row) : List CellValue :=
  (writeRowsCells renamedPeriodCols 4 rows).filterMap
    (fun sc => if sc.col = 2 then some sc.value else none)

/-! ## Concrete tables and auxiliary definitions used by the theorems -/

/-- The rows whose `Day` is a valid (numeric) group key — the rows that
survive `groupby('Day', dropna=True)`. -/
def validDayRows (rows : List Row) : List Row :=
  rows.filter (fun r => (dayKey r).isSome)

/-- A one-row November sales table on which every daily script succeeds;
the `Day` value is the date as a timestamp-like number. -/
def novemberTable : Table :=
  { header := ["Day", "Orders", "Gross sales", "Net sales", "Gross profit",
               "Discounts", "Quantity ordered", "New or returning customer"],
    rows := [[("Day", CellValue.num 20251101), ("Orders", CellValue.num 10),
              ("Gross sales", CellValue.num 500),
              ("Net sales", CellValue.num 480),
              ("Gross profit", CellValue.num 200),
              ("Discounts", CellValue.num (-20)),
              ("Quantity ordered", CellValue.num 12),
              ("New or returning customer", CellValue.str "New")]] }

/-- A well-formed one-row sales table whose `7D Units` column sums to zero:
the zero-denominator case of the 7-to-30-day growth ratio and of the 7-day
top-seller lookup. -/
def salesZeroWeekTable : Table :=
  { header := ["SKU", "Product Name", "Category", "Color",
               "7D Units", "7D Sales", "7D Net Sales", "7D Avg Price",
               "30D Units", "30D Sales", "30D Net Sales", "30D Avg Price",
               "90D Units", "90D Sales", "90D Net Sales", "90D Avg Price"],
    rows := [[("SKU", CellValue.str "VEST-32R"),
              ("Product Name", CellValue.str "Vest"),
              ("Category", CellValue.str "Suits"),
              ("Color", CellValue.str "Navy"),
              ("7D Units", CellValue.num 0), ("7D Sales", CellValue.num 0),
              ("7D Net Sales", CellValue.num 0),
              ("7D Avg Price", CellValue.num 45),
              ("30D Units", CellValue.num 20),
              ("30D Sales", CellValue.num 900),
              ("30D Net Sales", CellValue.num 850),
              ("30D Avg Price", CellValue.num 45),
              ("90D Units", CellValue.num 60),
              ("90D Sales", CellValue.num 2700),
              ("90D Net Sales", CellValue.num 2550),
              ("90D Avg Price", CellValue.num 45)]] }

/-- A second well-formed daily table (different data from `novemberTable`),
used to instantiate two-input hyperproperties. -/
def novemberTableB : Table :=
  { header := ["Day", "Orders", "Gross sales", "Net sales", "Gross profit",
               "Discounts", "Quantity ordered", "New or returning customer"],
    rows := [[("Day", CellValue.num 20251102), ("Orders", CellValue.num 3),
              ("Gross sales", CellValue.num 90),
              ("Net sales", CellValue.num 85),
              ("Gross profit", CellValue.num 40),
              ("Discounts", CellValue.num (-5)),
              ("Quantity ordered", CellValue.num 4),
              ("New or returning customer", CellValue.str "Returning")],
             [("Day", CellValue.num 20251103), ("Orders", CellValue.num 7),
              ("Gross sales", CellValue.num 210),
              ("Net sales", CellValue.num 200),
              ("Gross profit", CellValue.num 95),
              ("Discounts", CellValue.num (-10)),
              ("Quantity ordered", CellValue.num 9),
              ("New or returning customer", CellValue.str "New")]] }

/-- The parts of a cell's applied style other than the number format and the
horizontal alignment: fill, font, border. -/
def stripValueDeps : Option CellStyle → Option (FillKind × FontKind × Bool) :=
  Option.map (fun st => (st.fill, st.font, st.border))

/-- A cell's applied style with the number format discarded. -/
def eraseFmt : Option CellStyle → Option CellStyle :=
  Option.map (fun st => { st with numberFormat := none })

/-- The value `write_data_table` stores for a cell: `NaN` becomes the empty
string, everything else is stored as is. -/
def writtenValue : CellValue → CellValue
  | CellValue.na => CellValue.str ""
  | v => v

/-- A third well-formed daily table (two customer segments, data different
from `novemberTableB`), used alongside it for two-input hyperproperties of
the chart script. -/
def novemberTableC : Table :=
  { header := ["Day", "Orders", "Gross sales", "Net sales", "Gross profit",
               "Discounts", "Quantity ordered", "New or returning customer"],
    rows := [[("Day", CellValue.num 20251110), ("Orders", CellValue.num 5),
              ("Gross sales", CellValue.num 150),
              ("Net sales", CellValue.num 140),
              ("Gross profit", CellValue.num 70),
              ("Discounts", CellValue.num (-8)),
              ("Quantity ordered", CellValue.num 6),
              ("New or returning customer", CellValue.str "New")],
             [("Day", CellValue.num 20251111), ("Orders", CellValue.num 2),
              ("Gross sales", CellValue.num 60),
              ("Net sales", CellValue.num 58),
              ("Gross profit", CellValue.num 25),
              ("Discounts", CellValue.num (-2)),
              ("Quantity ordered", CellValue.num 2),
              ("New or returning customer",
                CellValue.str "Returning")]] }

/-! ## Helper lemmas: association-list lookups -/

theorem lookup_append_eq (c : String) (l₁ l₂ : Row) :
    List.lookup c (l₁ ++ l₂) =
      match List.lookup c l₁ with
      | some v => some v
      | none => List.lookup c l₂ := by
  induction l₁ with
  | nil => simp
  | cons p rest ih =>
      obtain ⟨k, v⟩ := p
      by_cases h : c = k
      · subst h; simp [List.lookup]
      · simp only [List.cons_append, List.lookup,
          beq_false_of_ne h, List.append_eq, ih]

theorem lookup_map_self_none {l : List String} {c : String}
    (f : String → CellValue) (hc : c ∉ l) :
    List.lookup c (l.map (fun c' => (c', f c'))) = none := by
  induction l with
  | nil => simp
  | cons a rest ih =>
      have ha : c ≠ a := fun h => hc (h ▸ List.mem_cons_self a rest)
      simp only [List.map_cons, List.lookup, beq_false_of_ne ha]
      exact ih (fun h => hc (List.mem_cons_of_mem a h))

/-! ## Helper lemmas: the groupby-day result -/

theorem groupDayRow_lookup_day (aggCols : List String) (rows : List Row)
    (d : ℚ) :
    List.lookup "Day" (groupDayRow aggCols rows d)
      = some (CellValue.num d) := by
  simp [groupDayRow, List.lookup]

theorem groupDayRow_lookup_agg (aggCols : List String) (rows : List Row)
    (d : ℚ) {c : String} (hc : c ∈ aggCols) (hne : c ≠ "Day") :
    List.lookup c (groupDayRow aggCols rows d)
      = some (CellValue.num (sumCol (rowsOnDay rows d) c)) := by
  simp only [groupDayRow, List.lookup, beq_false_of_ne hne]
  exact List.lookup_graph (fun c' => CellValue.num (sumCol (rowsOnDay rows d) c')) hc

theorem groupDayRow_cell_day (aggCols : List String) (rows : List Row)
    (d : ℚ) :
    Row.cell (groupDayRow aggCols rows d) "Day" = CellValue.num d := by
  simp [Row.cell, groupDayRow_lookup_day]

theorem groupDayRow_cell_agg (aggCols : List String) (rows : List Row)
    (d : ℚ) {c : String} (hc : c ∈ aggCols) (hne : c ≠ "Day") :
    Row.cell (groupDayRow aggCols rows d) c
      = CellValue.num (sumCol (rowsOnDay rows d) c) := by
  simp [Row.cell, groupDayRow_lookup_agg aggCols rows d hc hne]

theorem nodup_dayKeys (rows : List Row) : (dayKeys rows).Nodup :=
  (List.perm_insertionSort _ _).nodup_iff.mpr (List.nodup_dedup _)

theorem mem_dayKeys {rows : List Row} {d : ℚ} :
    d ∈ dayKeys rows ↔ d ∈ dayVals rows := by
  unfold dayKeys
  rw [(List.perm_insertionSort _ _).mem_iff, List.mem_dedup]

theorem length_dayKeys (rows : List Row) :
    (dayKeys rows).length = (dayVals rows).dedup.length :=
  (List.perm_insertionSort _ _).length_eq


theorem sum_map_single (keys : List ℚ) (hk : keys.Nodup) (d0 : ℚ)
    (hd : d0 ∈ keys) (x : ℚ) :
    (keys.map (fun d => if d0 = d then x else 0)).sum = x := by
  induction keys with
  | nil => cases hd
  | cons k rest ih =>
      rcases List.nodup_cons.1 hk with ⟨hk1, hk2⟩
      rcases List.mem_cons.1 hd with h | h
      · subst h
        have hz : (rest.map (fun d => if d0 = d then x else 0)).sum = 0 := by
          apply List.sum_eq_zero
          intro y hy
          rcases List.mem_map.1 hy with ⟨d, hdm, hdy⟩
          have hne : ¬(d0 = d) := by
            intro hEq
            apply hk1
            rw [hEq]
            exact hdm
          rw [if_neg hne] at hdy
          exact hdy.symm
        simp [hz]
      · have hne : ¬(d0 = k) := by
          intro hEq
          apply hk1
          rw [← hEq]
          exact h
        simp [hne, ih hk2 h]

theorem sum_over_day_groups (keys : List ℚ) (hk : keys.Nodup)
    (rows : List Row) (f : Row → ℚ)
    (hcov : ∀ r ∈ rows, ∀ d, dayKey r = some d → d ∈ keys) :
    (keys.map (fun d => ((rowsOnDay rows d).map f).sum)).sum
      = ((validDayRows rows).map f).sum := by
  induction rows with
  | nil => simp [rowsOnDay, validDayRows]
  | cons r rest ih =>
      have hcov' : ∀ r' ∈ rest, ∀ d, dayKey r' = some d → d ∈ keys :=
        fun r' h => hcov r' (List.mem_cons_of_mem _ h)
      rcases hday : dayKey r with _ | d0
      · have hsplit : ∀ d : ℚ, rowsOnDay (r :: rest) d = rowsOnDay rest d := by
          intro d
          simp [rowsOnDay, List.filter_cons, hday]
        simp only [hsplit]
        rw [ih hcov']
        simp [validDayRows, List.filter_cons, hday]
      · have hmem := hcov r (List.mem_cons_self _ _) d0 hday
        have hexpand : ∀ d : ℚ, ((rowsOnDay (r :: rest) d).map f).sum
            = (if d0 = d then f r else 0) + ((rowsOnDay rest d).map f).sum := by
          intro d
          by_cases h : d0 = d
          · subst h
            simp [rowsOnDay, List.filter_cons, hday]
          · have hne : ¬dayKey r = some d := by
              rw [hday]; simpa using h
            simp [rowsOnDay, List.filter_cons, hday, h]
        simp only [hexpand]
        rw [List.sum_map_add, sum_map_single keys hk d0 hmem (f r), ih hcov']
        simp [validDayRows, List.filter_cons, hday]

theorem sumCol_groupDaySum (aggCols : List String) (rows : List Row)
    {c : String} (hc : c ∈ aggCols) (hne : c ≠ "Day") :
    sumCol (groupDaySum aggCols rows) c = sumCol (validDayRows rows) c := by
  have hcell : ∀ d : ℚ,
      skipnaVal (Row.cell (groupDayRow aggCols rows d) c)
        = ((rowsOnDay rows d).map (fun r => skipnaVal (Row.cell r c))).sum := by
    intro d
    rw [groupDayRow_cell_agg aggCols rows d hc hne]
    rfl
  calc sumCol (groupDaySum aggCols rows) c
      = ((dayKeys rows).map (fun d =>
          ((rowsOnDay rows d).map (fun r => skipnaVal (Row.cell r c))).sum)).sum := by
        unfold sumCol groupDaySum
        rw [List.map_map]
        exact congrArg List.sum (List.map_congr_left (fun d _ => hcell d))
    _ = sumCol (validDayRows rows) c := by
        rw [sum_over_day_groups (dayKeys rows) (nodup_dayKeys rows) rows
          (fun r => skipnaVal (Row.cell r c))
          (fun r _ d hd => mem_dayKeys.2 (List.mem_filterMap.2 ⟨r, by assumption, hd⟩))]
        rfl

theorem groupDaySum_spec (aggCols : List String) (hD : "Day" ∉ aggCols)
    (rows : List Row) :
    ((groupDaySum aggCols rows).map (fun r => Row.cell r "Day")).Nodup
    ∧ (groupDaySum aggCols rows).length = (dayVals rows).dedup.length
    ∧ ∀ d ∈ dayVals rows, ∃ r ∈ groupDaySum aggCols rows,
        Row.cell r "Day" = CellValue.num d ∧
        ∀ c ∈ aggCols,
          Row.cell r c = CellValue.num (sumCol (rowsOnDay rows d) c) := by
  refine ⟨?_, ?_, ?_⟩
  · have hmap : (groupDaySum aggCols rows).map (fun r => Row.cell r "Day")
        = (dayKeys rows).map CellValue.num := by
      unfold groupDaySum
      rw [List.map_map]
      exact List.map_congr_left (fun d _ => groupDayRow_cell_day aggCols rows d)
    rw [hmap]
    exact (nodup_dayKeys rows).map
      (fun a b h => by injection h)
  · unfold groupDaySum
    rw [List.length_map]
    exact length_dayKeys rows
  · intro d hd
    refine ⟨groupDayRow aggCols rows d,
      List.mem_map_of_mem _ (mem_dayKeys.2 hd),
      groupDayRow_cell_day aggCols rows d, ?_⟩
    intro c hc
    exact groupDayRow_cell_agg aggCols rows d hc
      (fun h => hD (h ▸ hc))

/-- C4: For every day value appearing in the input table and every aggregated
measure column (`Orders`, `Gross sales`, `Net sales`, `Gross profit`,
`Discounts`), the derived daily table has exactly one row per distinct day,
and the row for a day carries, in each aggregated column, the sum of that
column over exactly the input rows whose `Day` equals that day.  Stated for
the `daily` tables of `charts_example.py` and `excel_export_example.py`
(whose aggregated columns include the five named ones). -/
theorem daily_table_is_per_day_sum (t : Table) :
    (((chartsDaily t).map (fun r => Row.cell r "Day")).Nodup
      ∧ (chartsDaily t).length = (dayVals t.rows).dedup.length
      ∧ ∀ d ∈ dayVals t.rows, ∃ r ∈ chartsDaily t,
          Row.cell r "Day" = CellValue.num d ∧
          ∀ c ∈ chartsAggCols,
            Row.cell r c = CellValue.num (sumCol (rowsOnDay t.rows d) c))
    ∧ (((excelDaily t).map (fun r => Row.cell r "Day")).Nodup
      ∧ (excelDaily t).length = (dayVals t.rows).dedup.length
      ∧ ∀ d ∈ dayVals t.rows, ∃ r ∈ excelDaily t,
          Row.cell r "Day" = CellValue.num d ∧
          ∀ c ∈ excelAggCols,
            Row.cell r c = CellValue.num (sumCol (rowsOnDay t.rows d) c)) :=
  ⟨groupDaySum_spec chartsAggCols (by decide) t.rows,
   groupDaySum_spec excelAggCols (by decide) t.rows⟩


theorem daily_table_is_per_day_sum_witness :
    20251101 ∈ dayVals novemberTable.rows
    ∧ (((chartsDaily novemberTable).map (fun r => Row.cell r "Day")).Nodup
        ∧ (chartsDaily novemberTable).length
            = (dayVals novemberTable.rows).dedup.length
        ∧ ∀ d ∈ dayVals novemberTable.rows, ∃ r ∈ chartsDaily novemberTable,
            Row.cell r "Day" = CellValue.num d ∧
            ∀ c ∈ chartsAggCols,
              Row.cell r c
                = CellValue.num (sumCol (rowsOnDay novemberTable.rows d) c)) :=
  ⟨by decide, (daily_table_is_per_day_sum novemberTable).1⟩

theorem cell_append_of_lookup_some {r₁ r₂ : Row} {c : String} {v : CellValue}
    (h : List.lookup c r₁ = some v) : Row.cell (r₁ ++ r₂) c = v := by
  unfold Row.cell
  rw [lookup_append_eq, h]
  rfl

theorem cell_append_of_lookup_none {r₁ r₂ : Row} {c : String}
    (h : List.lookup c r₁ = none) :
    Row.cell (r₁ ++ r₂) c = Row.cell r₂ c := by
  unfold Row.cell
  rw [lookup_append_eq, h]

theorem groupDayRow_lookup_aov_none (aggCols : List String) (rows : List Row)
    (d : ℚ) (hA : "AOV" ∉ aggCols) :
    List.lookup "AOV" (groupDayRow aggCols rows d) = none := by
  have hne : "AOV" ≠ "Day" := by decide
  simp only [groupDayRow, List.lookup, beq_false_of_ne hne]
  exact lookup_map_self_none _ hA

theorem withAOV_day_aov (aggCols : List String) (hD : "Day" ∉ aggCols)
    (hA : "AOV" ∉ aggCols) (hG : "Gross sales" ∈ aggCols)
    (hO : "Orders" ∈ aggCols) (rows : List Row) (d : ℚ)
    (hd : d ∈ dayVals rows)
    (hnz : sumCol (rowsOnDay rows d) "Orders" ≠ 0) :
    ∃ r ∈ withAOV (groupDaySum aggCols rows),
      Row.cell r "Day" = CellValue.num d ∧
      Row.cell r "AOV" = CellValue.num
        (sumCol (rowsOnDay rows d) "Gross sales"
          / sumCol (rowsOnDay rows d) "Orders") := by
  have hGne : "Gross sales" ≠ "Day" := fun h => hD (h ▸ hG)
  have hOne : "Orders" ≠ "Day" := fun h => hD (h ▸ hO)
  refine ⟨_, List.mem_map_of_mem
    (fun r => r ++ [("AOV", divVal (Row.cell r "Gross sales")
      (Row.cell r "Orders"))])
    (List.mem_map_of_mem (groupDayRow aggCols rows)
      (mem_dayKeys.2 hd)), ?_, ?_⟩
  · exact cell_append_of_lookup_some (groupDayRow_lookup_day aggCols rows d)
  · rw [cell_append_of_lookup_none
      (groupDayRow_lookup_aov_none aggCols rows d hA)]
    rw [groupDayRow_cell_agg aggCols rows d hG hGne,
        groupDayRow_cell_agg aggCols rows d hO hOne]
    show Row.cell [("AOV", divVal _ _)] "AOV" = _
    simp [Row.cell, List.lookup, divVal, hnz]

/-- C3: every AOV the scripts compute is gross sales divided by order count
over the rows being aggregated.  Per day: in each of the three daily tables
(`charts_example.py`, `excel_export_example.py`, `pdf_report_example.py`),
the row for a day carries, in `AOV`, that day's summed `Gross sales` divided
by that day's summed `Orders` (for days whose order sum is nonzero — a zero
sum gives a non-finite float, not a number).  Overall: the
`avg_aov = total_gross_sales / total_orders` KPI of the PDF report equals
the total gross sales divided by the total orders over the aggregated input
rows. -/
theorem aov_equals_gross_sales_over_orders (t : Table) :
    (∀ d ∈ dayVals t.rows, sumCol (rowsOnDay t.rows d) "Orders" ≠ 0 →
      (∃ r ∈ withAOV (chartsDaily t),
        Row.cell r "Day" = CellValue.num d ∧
        Row.cell r "AOV" = CellValue.num
          (sumCol (rowsOnDay t.rows d) "Gross sales"
            / sumCol (rowsOnDay t.rows d) "Orders"))
      ∧ (∃ r ∈ withAOV (excelDaily t),
        Row.cell r "Day" = CellValue.num d ∧
        Row.cell r "AOV" = CellValue.num
          (sumCol (rowsOnDay t.rows d) "Gross sales"
            / sumCol (rowsOnDay t.rows d) "Orders"))
      ∧ (∃ r ∈ withAOV (pdfDaily t),
        Row.cell r "Day" = CellValue.num d ∧
        Row.cell r "AOV" = CellValue.num
          (sumCol (rowsOnDay t.rows d) "Gross sales"
            / sumCol (rowsOnDay t.rows d) "Orders")))
    ∧ (pdf_total_orders t ≠ 0 →
        pdf_avg_aov t
          = sumCol (validDayRows t.rows) "Gross sales"
            / sumCol (validDayRows t.rows) "Orders") := by
  constructor
  · intro d hd hnz
    exact ⟨withAOV_day_aov chartsAggCols (by decide) (by decide) (by decide)
        (by decide) t.rows d hd hnz,
      withAOV_day_aov excelAggCols (by decide) (by decide) (by decide)
        (by decide) t.rows d hd hnz,
      withAOV_day_aov pdfAggCols (by decide) (by decide) (by decide)
        (by decide) t.rows d hd hnz⟩
  · intro _hnz
    unfold pdf_avg_aov pdf_total_gross_sales pdf_total_orders pdfDaily
    rw [sumCol_groupDaySum pdfAggCols t.rows (by decide) (by decide),
        sumCol_groupDaySum pdfAggCols t.rows (by decide) (by decide)]

theorem lookup_head (c : String) (v : CellValue) (l : Row) :
    List.lookup c ((c, v) :: l) = some v := by
  simp [List.lookup]

theorem lookup_tail {c k : String} (h : (c == k) = false) (v : CellValue)
    (l : Row) : List.lookup c ((k, v) :: l) = List.lookup c l := by
  simp [List.lookup, h]

theorem aov_equals_gross_sales_over_orders_witness :
    20251101 ∈ dayVals novemberTable.rows
    ∧ sumCol (rowsOnDay novemberTable.rows 20251101) "Orders" ≠ 0
    ∧ (∃ r ∈ withAOV (chartsDaily novemberTable),
        Row.cell r "Day" = CellValue.num 20251101 ∧
        Row.cell r "AOV" = CellValue.num
          (sumCol (rowsOnDay novemberTable.rows 20251101) "Gross sales"
            / sumCol (rowsOnDay novemberTable.rows 20251101) "Orders"))
    ∧ pdf_avg_aov novemberTable
        = sumCol (validDayRows novemberTable.rows) "Gross sales"
          / sumCol (validDayRows novemberTable.rows) "Orders" := by
  have hsum : sumCol (rowsOnDay novemberTable.rows 20251101) "Orders" ≠ 0 := by
    simp only [sumCol, rowsOnDay, novemberTable, dayKey, numVal?, Row.cell]
    simp [lookup_tail, lookup_head, skipnaVal]
  have htot : pdf_total_orders novemberTable ≠ 0 := by
    have hk : dayKeys novemberTable.rows = [20251101] := rfl
    have hcell := groupDayRow_cell_agg pdfAggCols novemberTable.rows 20251101
      (show "Orders" ∈ pdfAggCols by decide) (by decide)
    unfold pdf_total_orders pdfDaily groupDaySum
    rw [hk]
    simpa [sumCol, hcell, skipnaVal] using hsum
  exact ⟨by decide, hsum,
    ((aov_equals_gross_sales_over_orders novemberTable).1 20251101 (by decide)
      hsum).1,
    (aov_equals_gross_sales_over_orders novemberTable).2 htot⟩

/-- C2 (amended): `sales_analysis_excel_report.py` does not validate the
table's shape — a missing required column raises an uncaught `KeyError` and
an empty table (with `Product Name` present) raises an uncaught `IndexError`,
each with no file written — but a zero denominator does NOT terminate the
script: the scalar ratios and `idxmax` calls are explicitly guarded
(lines 246–248, 327, 461, 586–588), substituting `'N/A'` or `0`, and a
well-formed nonempty table always completes and writes the output file. -/
theorem sales_analysis_validation_behaviour (t : Table) :
    (∀ c, firstMissing t salesRequiredCols = some c →
        salesAnalysisRun t
          = { files := [], error := some (PyError.keyError c) })
    ∧ (firstMissing t salesRequiredCols = none →
        t.rows = [] → t.header.contains "Product Name" = true →
        salesAnalysisRun t
          = { files := [], error := some PyError.indexError })
    ∧ (sumCol t.rows "7D Units" = 0 →
        topSeller t "7D Units" = CellValue.str "N/A" ∧ growth_7_to_30 t = 0)
    ∧ (sumCol t.rows "90D Sales" = 0 →
        margin_pct t = 0 ∧ weekly_rate t = 0 ∧ velocity_change t = 0)
    ∧ (firstMissing t salesRequiredCols = none → t.rows ≠ [] →
        salesAnalysisRun t
          = { files := ["sales_analysis_report.xlsx"], error := none }) := by
  refine ⟨?_, ?_, ?_, ?_, ?_⟩
  · intro c h
    simp [salesAnalysisRun, h]
  · intro h1 h2 h3
    have h3' : "Product Name" ∈ t.header := by simpa using h3
    simp [salesAnalysisRun, h1, h2, h3']
  · intro h
    constructor
    · simp [topSeller, h]
    · simp [growth_7_to_30, h]
  · intro h
    refine ⟨by simp [margin_pct, h], by simp [weekly_rate, h], ?_⟩
    simp [velocity_change, weekly_rate, h]
  · intro h1 h2
    simp [salesAnalysisRun, h1, h2]


/-- C2 counterexample: an input table with a zero denominator in the growth
ratio (its `7D Units` sum to `0`) on which the script does NOT terminate
with an error: it substitutes `'N/A'` for the top seller and `0` for the
growth ratio, completes, and writes its output file. -/
theorem zero_week_units_still_writes_report :
    sumCol salesZeroWeekTable.rows "7D Units" = 0
    ∧ salesAnalysisRun salesZeroWeekTable
        = { files := ["sales_analysis_report.xlsx"], error := none }
    ∧ topSeller salesZeroWeekTable "7D Units" = CellValue.str "N/A"
    ∧ growth_7_to_30 salesZeroWeekTable = 0 := by
  have hsum : sumCol salesZeroWeekTable.rows "7D Units" = 0 := by
    simp only [sumCol, salesZeroWeekTable, Row.cell]
    simp [lookup_tail, lookup_head, skipnaVal]
  refine ⟨hsum, by decide, ?_, ?_⟩
  · simp [topSeller, hsum]
  · simp [growth_7_to_30, hsum]

theorem sales_analysis_validation_behaviour_witness :
    salesAnalysisRun { header := ["SKU"], rows := [] }
        = { files := [], error := some (PyError.keyError "7D Units") }
    ∧ (topSeller salesZeroWeekTable "7D Units" = CellValue.str "N/A"
        ∧ growth_7_to_30 salesZeroWeekTable = 0)
    ∧ salesAnalysisRun salesZeroWeekTable
        = { files := ["sales_analysis_report.xlsx"], error := none } := by
  have hsum : sumCol salesZeroWeekTable.rows "7D Units" = 0 := by
    simp only [sumCol, salesZeroWeekTable, Row.cell]
    simp [lookup_tail, lookup_head, skipnaVal]
  exact ⟨(sales_analysis_validation_behaviour
      { header := ["SKU"], rows := [] }).1 "7D Units" (by decide),
    (sales_analysis_validation_behaviour salesZeroWeekTable).2.2.1 hsum,
    (sales_analysis_validation_behaviour salesZeroWeekTable).2.2.2.2
      (by decide) (by decide)⟩

theorem salesAnalysisRun_of_ok (t : Table)
    (h : (salesAnalysisRun t).error = none) :
    salesAnalysisRun t
      = { files := ["sales_analysis_report.xlsx"], error := none } := by
  unfold salesAnalysisRun at h ⊢
  split at h
  · simp_all
  · split at h <;> simp_all

theorem excelExportRun_of_ok (t : Table)
    (h : (excelExportRun t).error = none) :
    excelExportRun t
      = { files := ["november_2025_report.xlsx"], error := none } := by
  unfold excelExportRun at h ⊢
  split at h <;> simp_all

theorem styledExcelRun_of_ok (t : Table)
    (h : (styledExcelRun t).error = none) :
    styledExcelRun t
      = { files := ["styled_analysis_report.xlsx"], error := none } := by
  unfold styledExcelRun at h ⊢
  split at h <;> simp_all

theorem chartsExampleRun_of_ok (t : Table)
    (h : (chartsExampleRun t).error = none) :
    chartsExampleRun t
      = { files := ["chart_line_sales.png", "chart_bar_orders.png",
                    "chart_dual_axis.png", "chart_pie_customers.png",
                    "chart_comparison.png", "chart_heatmap.png"],
          error := none } := by
  unfold chartsExampleRun at h ⊢
  split at h
  · simp_all
  · split at h
    · simp_all
    · split at h
      · simp_all
      · split at h <;> simp_all

theorem pdfReportRun_of_ok (t : Table)
    (h : (pdfReportRun t).error = none) :
    pdfReportRun t
      = { files := ["chart_daily_sales.png", "chart_daily_orders.png",
                    "chart_aov_trend.png", "november_kpi_report.pdf"],
          error := none } := by
  unfold pdfReportRun at h ⊢
  split at h <;> simp_all

theorem pieChartOk_novemberTableB : pieChartOk novemberTableB.rows = true := by
  have hk : customerKeys novemberTableB.rows
      = [CellValue.str "Returning", CellValue.str "New"] := by decide
  have ho1 : sumCol (customerRowsOn novemberTableB.rows
      (CellValue.str "Returning")) "Orders" = 3 := by
    simp only [sumCol, customerRowsOn, novemberTableB, Row.cell]
    simp [lookup_tail, lookup_head, skipnaVal]
  have ho2 : sumCol (customerRowsOn novemberTableB.rows
      (CellValue.str "New")) "Orders" = 7 := by
    simp only [sumCol, customerRowsOn, novemberTableB, Row.cell]
    simp [lookup_tail, lookup_head, skipnaVal]
  have hg1 : sumCol (customerRowsOn novemberTableB.rows
      (CellValue.str "Returning")) "Gross sales" = 90 := by
    simp only [sumCol, customerRowsOn, novemberTableB, Row.cell]
    simp [lookup_tail, lookup_head, skipnaVal]
  have hg2 : sumCol (customerRowsOn novemberTableB.rows
      (CellValue.str "New")) "Gross sales" = 210 := by
    simp only [sumCol, customerRowsOn, novemberTableB, Row.cell]
    simp [lookup_tail, lookup_head, skipnaVal]
  unfold pieChartOk
  rw [hk]
  simp [ho1, ho2, hg1, hg2]

theorem chartsExampleRun_novemberTableB_eq :
    chartsExampleRun novemberTableB
      = { files := ["chart_line_sales.png", "chart_bar_orders.png",
                    "chart_dual_axis.png", "chart_pie_customers.png",
                    "chart_comparison.png", "chart_heatmap.png"],
          error := none } := by
  have hstep : chartsExampleRun novemberTableB
      = if !(pieChartOk novemberTableB.rows) then
          { files := ["chart_line_sales.png", "chart_bar_orders.png",
                      "chart_dual_axis.png"],
            error := some PyError.valueError }
        else
          { files := ["chart_line_sales.png", "chart_bar_orders.png",
                      "chart_dual_axis.png", "chart_pie_customers.png",
                      "chart_comparison.png", "chart_heatmap.png"],
            error := none } := rfl
  rw [hstep, pieChartOk_novemberTableB]
  rfl

theorem pieChartOk_novemberTableC : pieChartOk novemberTableC.rows = true := by
  have hk : customerKeys novemberTableC.rows
      = [CellValue.str "New", CellValue.str "Returning"] := by decide
  have ho1 : sumCol (customerRowsOn novemberTableC.rows
      (CellValue.str "New")) "Orders" = 5 := by
    simp only [sumCol, customerRowsOn, novemberTableC, Row.cell]
    simp [lookup_tail, lookup_head, skipnaVal]
  have ho2 : sumCol (customerRowsOn novemberTableC.rows
      (CellValue.str "Returning")) "Orders" = 2 := by
    simp only [sumCol, customerRowsOn, novemberTableC, Row.cell]
    simp [lookup_tail, lookup_head, skipnaVal]
  have hg1 : sumCol (customerRowsOn novemberTableC.rows
      (CellValue.str "New")) "Gross sales" = 150 := by
    simp only [sumCol, customerRowsOn, novemberTableC, Row.cell]
    simp [lookup_tail, lookup_head, skipnaVal]
  have hg2 : sumCol (customerRowsOn novemberTableC.rows
      (CellValue.str "Returning")) "Gross sales" = 60 := by
    simp only [sumCol, customerRowsOn, novemberTableC, Row.cell]
    simp [lookup_tail, lookup_head, skipnaVal]
  unfold pieChartOk
  rw [hk]
  simp [ho1, ho2, hg1, hg2]

theorem chartsExampleRun_novemberTableC_eq :
    chartsExampleRun novemberTableC
      = { files := ["chart_line_sales.png", "chart_bar_orders.png",
                    "chart_dual_axis.png", "chart_pie_customers.png",
                    "chart_comparison.png", "chart_heatmap.png"],
          error := none } := by
  have hstep : chartsExampleRun novemberTableC
      = if !(pieChartOk novemberTableC.rows) then
          { files := ["chart_line_sales.png", "chart_bar_orders.png",
                      "chart_dual_axis.png"],
            error := some PyError.valueError }
        else
          { files := ["chart_line_sales.png", "chart_bar_orders.png",
                      "chart_dual_axis.png", "chart_pie_customers.png",
                      "chart_comparison.png", "chart_heatmap.png"],
            error := none } := rfl
  rw [hstep, pieChartOk_novemberTableC]
  rfl

/-- C1 (amended): a script run that completes writes a fixed number of
output files, but that number is one only for the three Excel scripts: the
chart script writes six PNG files, and the PDF script writes four files
(three chart PNGs plus the PDF). -/
theorem scripts_write_fixed_file_counts (t : Table) :
    ((salesAnalysisRun t).error = none →
        (salesAnalysisRun t).files.length = 1)
    ∧ ((excelExportRun t).error = none →
        (excelExportRun t).files.length = 1)
    ∧ ((styledExcelRun t).error = none →
        (styledExcelRun t).files.length = 1)
    ∧ ((chartsExampleRun t).error = none →
        (chartsExampleRun t).files.length = 6)
    ∧ ((pdfReportRun t).error = none →
        (pdfReportRun t).files.length = 4) := by
  refine ⟨fun h => ?_, fun h => ?_, fun h => ?_, fun h => ?_, fun h => ?_⟩
  · rw [salesAnalysisRun_of_ok t h]; rfl
  · rw [excelExportRun_of_ok t h]; rfl
  · rw [styledExcelRun_of_ok t h]; rfl
  · rw [chartsExampleRun_of_ok t h]; rfl
  · rw [pdfReportRun_of_ok t h]; rfl

/-- C1 counterexample: on a well-formed table with two customer segments
and non-negative sums, `charts_example.py` completes without an error and
writes six files, not exactly one. -/
theorem charts_script_writes_six_files :
    (chartsExampleRun novemberTableB).error = none
    ∧ (chartsExampleRun novemberTableB).files.length ≠ 1 := by
  rw [chartsExampleRun_novemberTableB_eq]
  exact ⟨rfl, by decide⟩

theorem scripts_write_fixed_file_counts_witness :
    (salesAnalysisRun salesZeroWeekTable).files.length = 1
    ∧ (excelExportRun novemberTable).files.length = 1
    ∧ (styledExcelRun novemberTable).files.length = 1
    ∧ (chartsExampleRun novemberTableB).files.length = 6
    ∧ (pdfReportRun novemberTable).files.length = 4 :=
  ⟨(scripts_write_fixed_file_counts salesZeroWeekTable).1 (by decide),
   (scripts_write_fixed_file_counts novemberTable).2.1 (by decide),
   (scripts_write_fixed_file_counts novemberTable).2.2.1 (by decide),
   (scripts_write_fixed_file_counts novemberTableB).2.2.2.1
     (by rw [chartsExampleRun_novemberTableB_eq]),
   (scripts_write_fixed_file_counts novemberTable).2.2.2.2 (by decide)⟩


/-- C6: output file names are hard-coded per script — for any two input
tables on which a script's run completes, the run writes its output under
exactly the same file names; the names never depend on the input data. -/
theorem output_file_names_input_independent (t₁ t₂ : Table) :
    ((salesAnalysisRun t₁).error = none → (salesAnalysisRun t₂).error = none →
        (salesAnalysisRun t₁).files = (salesAnalysisRun t₂).files)
    ∧ ((excelExportRun t₁).error = none → (excelExportRun t₂).error = none →
        (excelExportRun t₁).files = (excelExportRun t₂).files)
    ∧ ((styledExcelRun t₁).error = none → (styledExcelRun t₂).error = none →
        (styledExcelRun t₁).files = (styledExcelRun t₂).files)
    ∧ ((chartsExampleRun t₁).error = none →
        (chartsExampleRun t₂).error = none →
        (chartsExampleRun t₁).files = (chartsExampleRun t₂).files)
    ∧ ((pdfReportRun t₁).error = none → (pdfReportRun t₂).error = none →
        (pdfReportRun t₁).files = (pdfReportRun t₂).files) := by
  refine ⟨fun h₁ h₂ => ?_, fun h₁ h₂ => ?_, fun h₁ h₂ => ?_,
    fun h₁ h₂ => ?_, fun h₁ h₂ => ?_⟩
  · rw [salesAnalysisRun_of_ok t₁ h₁, salesAnalysisRun_of_ok t₂ h₂]
  · rw [excelExportRun_of_ok t₁ h₁, excelExportRun_of_ok t₂ h₂]
  · rw [styledExcelRun_of_ok t₁ h₁, styledExcelRun_of_ok t₂ h₂]
  · rw [chartsExampleRun_of_ok t₁ h₁, chartsExampleRun_of_ok t₂ h₂]
  · rw [pdfReportRun_of_ok t₁ h₁, pdfReportRun_of_ok t₂ h₂]

theorem output_file_names_input_independent_witness :
    (chartsExampleRun novemberTableB).files
        = (chartsExampleRun novemberTableC).files
    ∧ (pdfReportRun novemberTable).files = (pdfReportRun novemberTableB).files
    ∧ (excelExportRun novemberTable).files
        = (excelExportRun novemberTableB).files :=
  ⟨(output_file_names_input_independent novemberTableB
      novemberTableC).2.2.2.1 (by rw [chartsExampleRun_novemberTableB_eq])
      (by rw [chartsExampleRun_novemberTableC_eq]),
   (output_file_names_input_independent novemberTable
      novemberTableB).2.2.2.2 (by decide) (by decide),
   (output_file_names_input_independent novemberTable novemberTableB).2.1
      (by decide) (by decide)⟩

/-- C7: the test harness reads the table from the CSV path given as its
first command-line argument when one is supplied, from
`sample_sales_data.csv` otherwise, and runs the report script's text on the
loaded table bound to `df`. -/
theorem test_harness_csv_choice_and_exec (argv : List String)
    (load : String → Table) :
    (argv = [] → chooseCsvFile argv = "sample_sales_data.csv")
    ∧ (∀ a rest, argv = a :: rest → chooseCsvFile argv = a)
    ∧ testHarnessRun argv load
        = salesAnalysisRun (load (chooseCsvFile argv)) := by
  refine ⟨fun h => ?_, fun a rest h => ?_, rfl⟩
  · rw [h]; rfl
  · rw [h]; rfl

theorem test_harness_csv_choice_and_exec_witness :
    chooseCsvFile [] = "sample_sales_data.csv"
    ∧ chooseCsvFile ["custom.csv"] = "custom.csv"
    ∧ testHarnessRun ["custom.csv"] (fun _ => salesZeroWeekTable)
        = salesAnalysisRun salesZeroWeekTable :=
  ⟨(test_harness_csv_choice_and_exec [] (fun _ => salesZeroWeekTable)).1 rfl,
   (test_harness_csv_choice_and_exec ["custom.csv"]
      (fun _ => salesZeroWeekTable)).2.1 "custom.csv" [] rfl,
   (test_harness_csv_choice_and_exec ["custom.csv"]
      (fun _ => salesZeroWeekTable)).2.2⟩

/-! ## C8 and C9 -/

/-- C8: every column width set by `auto_fit_columns(ws, min_width,
max_width)` lies between `min_width` and `max_width` inclusive, for every
worksheet, every choice of cell contents, and every rendering of values to
strings (the widths assume `min_width ≤ max_width`, as at both call sites'
defaults 10/25 and 12/30). -/
theorem auto_fit_columns_width_bounds (strLen : CellValue → ℕ)
    (ws : List (List (Option CellValue))) (minW maxW : ℕ)
    (h : minW ≤ maxW) :
    ∀ w ∈ auto_fit_columns strLen ws minW maxW, minW ≤ w ∧ w ≤ maxW := by
  intro w hw
  rcases List.mem_map.1 hw with ⟨col, _, rfl⟩
  exact ⟨le_min (le_max_right _ _) h, min_le_right _ _⟩

theorem auto_fit_columns_width_bounds_witness :
    10 ≤ (auto_fit_columns (fun _ => 4)
        [[some (CellValue.str "Size"), none]] 10 25).headI
    ∧ (auto_fit_columns (fun _ => 4)
        [[some (CellValue.str "Size"), none]] 10 25).headI ≤ 25 :=
  auto_fit_columns_width_bounds (fun _ => 4)
    [[some (CellValue.str "Size"), none]] 10 25 (by decide) _ (by decide)

theorem hexDigitVal_le {c : Char} {d : ℕ} (h : hexDigitVal c = some d) :
    d ≤ 15 := by
  unfold hexDigitVal at h
  split at h
  · injection h with h
    omega
  · split at h <;> simp_all <;> omega

theorem parseHex_pair {c₁ c₂ : Char} {d₁ d₂ : ℕ}
    (h₁ : hexDigitVal c₁ = some d₁) (h₂ : hexDigitVal c₂ = some d₂) :
    parseHex [c₁, c₂] = some (16 * d₁ + d₂) := by
  show parseHexAux 0 [c₁, c₂] = some (16 * d₁ + d₂)
  simp [parseHexAux, h₁, h₂]

theorem hex_to_rgb_of_parse {s : String} {l : List Char} {r g b : ℕ}
    (h : lstripHash s = l)
    (hr : parseHex (pySlice l 0 2) = some r)
    (hg : parseHex (pySlice l 2 4) = some g)
    (hb : parseHex (pySlice l 4 6) = some b) :
    hex_to_rgb s = some ((r : ℚ) / 255, (g : ℚ) / 255, (b : ℚ) / 255) := by
  unfold hex_to_rgb
  rw [h, hr, hg, hb]

theorem dropWhileHash_cons_ne {c : Char} (h : ¬(c = '#')) (l : List Char) :
    (c :: l).dropWhile (fun c => c = '#') = c :: l := by
  simp [List.dropWhile, h]

theorem rgb_component_bounds {a b : ℕ} (ha : a ≤ 15) (hb : b ≤ 15) :
    0 ≤ ((16 * a + b : ℕ) : ℚ) / 255 ∧ ((16 * a + b : ℕ) : ℚ) / 255 ≤ 1 := by
  constructor
  · positivity
  · rw [div_le_one (by norm_num)]
    have hn : (16 * a + b : ℕ) ≤ 255 := by omega
    exact_mod_cast hn

/-- C9: for every string of the form `#RRGGBB` or `RRGGBB` whose six
characters are hex digits, `hex_to_rgb` returns the triple whose components
are the values of the three digit pairs divided by 255, each lying in
`[0, 1]`. -/
theorem hex_to_rgb_pairs_over_255 (c₁ c₂ c₃ c₄ c₅ c₆ : Char)
    (d₁ d₂ d₃ d₄ d₅ d₆ : ℕ)
    (h₁ : hexDigitVal c₁ = some d₁) (h₂ : hexDigitVal c₂ = some d₂)
    (h₃ : hexDigitVal c₃ = some d₃) (h₄ : hexDigitVal c₄ = some d₄)
    (h₅ : hexDigitVal c₅ = some d₅) (h₆ : hexDigitVal c₆ = some d₆) :
    hex_to_rgb (String.mk ['#', c₁, c₂, c₃, c₄, c₅, c₆])
        = some (((16 * d₁ + d₂ : ℕ) : ℚ) / 255,
                ((16 * d₃ + d₄ : ℕ) : ℚ) / 255,
                ((16 * d₅ + d₆ : ℕ) : ℚ) / 255)
    ∧ hex_to_rgb (String.mk [c₁, c₂, c₃, c₄, c₅, c₆])
        = some (((16 * d₁ + d₂ : ℕ) : ℚ) / 255,
                ((16 * d₃ + d₄ : ℕ) : ℚ) / 255,
                ((16 * d₅ + d₆ : ℕ) : ℚ) / 255)
    ∧ (0 ≤ ((16 * d₁ + d₂ : ℕ) : ℚ) / 255
        ∧ ((16 * d₁ + d₂ : ℕ) : ℚ) / 255 ≤ 1)
    ∧ (0 ≤ ((16 * d₃ + d₄ : ℕ) : ℚ) / 255
        ∧ ((16 * d₃ + d₄ : ℕ) : ℚ) / 255 ≤ 1)
    ∧ (0 ≤ ((16 * d₅ + d₆ : ℕ) : ℚ) / 255
        ∧ ((16 * d₅ + d₆ : ℕ) : ℚ) / 255 ≤ 1) := by
  have hc₁ : ¬(c₁ = '#') := by
    intro hEq
    rw [hEq] at h₁
    exact Option.noConfusion h₁
  have hstrip₁ : lstripHash (String.mk ['#', c₁, c₂, c₃, c₄, c₅, c₆])
      = [c₁, c₂, c₃, c₄, c₅, c₆] := by
    show List.dropWhile _ ('#' :: [c₁, c₂, c₃, c₄, c₅, c₆])
        = [c₁, c₂, c₃, c₄, c₅, c₆]
    rw [List.dropWhile_cons_of_pos (by decide)]
    exact dropWhileHash_cons_ne hc₁ _
  have hstrip₂ : lstripHash (String.mk [c₁, c₂, c₃, c₄, c₅, c₆])
      = [c₁, c₂, c₃, c₄, c₅, c₆] := dropWhileHash_cons_ne hc₁ _
  have hr : parseHex (pySlice [c₁, c₂, c₃, c₄, c₅, c₆] 0 2)
      = some (16 * d₁ + d₂) := parseHex_pair h₁ h₂
  have hg : parseHex (pySlice [c₁, c₂, c₃, c₄, c₅, c₆] 2 4)
      = some (16 * d₃ + d₄) := parseHex_pair h₃ h₄
  have hb : parseHex (pySlice [c₁, c₂, c₃, c₄, c₅, c₆] 4 6)
      = some (16 * d₅ + d₆) := parseHex_pair h₅ h₆
  exact ⟨hex_to_rgb_of_parse hstrip₁ hr hg hb,
    hex_to_rgb_of_parse hstrip₂ hr hg hb,
    rgb_component_bounds (hexDigitVal_le h₁) (hexDigitVal_le h₂),
    rgb_component_bounds (hexDigitVal_le h₃) (hexDigitVal_le h₄),
    rgb_component_bounds (hexDigitVal_le h₅) (hexDigitVal_le h₆)⟩

theorem hex_to_rgb_pairs_over_255_witness :
    hex_to_rgb (String.mk ['#', '8', '2', '2', 'F', '2', '3'])
        = some (((16 * 8 + 2 : ℕ) : ℚ) / 255, ((16 * 2 + 15 : ℕ) : ℚ) / 255,
                ((16 * 2 + 3 : ℕ) : ℚ) / 255)
    ∧ 0 ≤ ((16 * 8 + 2 : ℕ) : ℚ) / 255
    ∧ ((16 * 8 + 2 : ℕ) : ℚ) / 255 ≤ 1 := by
  have h := hex_to_rgb_pairs_over_255 '8' '2' '2' 'F' '2' '3' 8 2 2 15 2 3
    rfl rfl rfl rfl rfl rfl
  exact ⟨h.1, h.2.2.1.1, h.2.2.1.2⟩

/-! ## C5 -/


theorem mem_writeHeaderCells {sc : StyledCell} :
    ∀ {ri ci : ℕ} {cols : List String}, sc ∈ writeHeaderCells ri ci cols →
      ∃ c, sc.value = CellValue.str c
        ∧ sc.style = some (style_cell true false false none) := by
  intro ri ci cols
  induction cols generalizing ci with
  | nil => intro h; cases h
  | cons c rest ih =>
      intro h
      rcases List.mem_cons.1 h with h | h
      · exact ⟨c, by rw [h], by rw [h]⟩
      · exact ih h

theorem mem_writeRowCells {sc : StyledCell} {r : Row} {ri : ℕ} :
    ∀ {ci : ℕ} {cols : List String}, sc ∈ writeRowCells r ri ci cols →
      ∃ j c, sc = writeDataCell ri j c (Row.cell r c) := by
  intro ci cols
  induction cols generalizing ci with
  | nil => intro h; cases h
  | cons c rest ih =>
      intro h
      rcases List.mem_cons.1 h with h | h
      · exact ⟨ci, c, h⟩
      · exact ih h

theorem mem_writeRowsCells {sc : StyledCell} {cols : List String} :
    ∀ {ri : ℕ} {rows : List Row}, sc ∈ writeRowsCells cols ri rows →
      ∃ i j c v, sc = writeDataCell i j c v := by
  intro ri rows
  induction rows generalizing ri with
  | nil => intro h; cases h
  | cons r rest ih =>
      intro h
      rcases List.mem_append.1 h with h | h
      · rcases mem_writeRowCells h with ⟨j, c, hsc⟩
        exact ⟨ri, j, c, _, hsc⟩
      · exact ih h

theorem writeDataCell_fmt_iff (i j : ℕ) (c : String) (v : CellValue) :
    (∃ st, (writeDataCell i j c v).style = some st ∧ st.numberFormat ≠ none)
      ↔ ∃ q, (writeDataCell i j c v).value = CellValue.num q := by
  cases v <;> simp [writeDataCell, style_cell]

/-- C5 (amended): in `write_data_table`, a number format is applied to a
written cell if and only if its value is numeric (a non-`NaN` number); the
format chosen depends only on the column name and the fill only on the row
parity.  However, the applied style is not otherwise value-independent: the
horizontal alignment also depends on whether the value is numeric (right for
numbers, left for other data values), and a `NaN` value is written as an
empty string with no styling applied at all; only the fill, font and border
of styled data cells are independent of the value. -/
theorem write_data_table_number_format_iff_numeric (rows : List Row)
    (columns : List String) (start_row : ℕ) :
    (∀ sc ∈ write_data_table rows columns start_row,
        ((∃ st, sc.style = some st ∧ st.numberFormat ≠ none)
          ↔ ∃ q, sc.value = CellValue.num q))
    ∧ (∀ i j c q, (writeDataCell i j c (CellValue.num q)).style
          = some (style_cell false (decide (i % 2 = 0)) true
              (some (fmtForColumn c))))
    ∧ (∀ i j c s, (writeDataCell i j c (CellValue.str s)).style
          = some (style_cell false (decide (i % 2 = 0)) false none))
    ∧ (∀ i j c, (writeDataCell i j c CellValue.na).style = none)
    ∧ (∀ i j c v w, v ≠ CellValue.na → w ≠ CellValue.na →
          stripValueDeps (writeDataCell i j c v).style
            = stripValueDeps (writeDataCell i j c w).style) := by
  refine ⟨?_, fun i j c q => rfl, fun i j c s => rfl, fun i j c => rfl, ?_⟩
  · intro sc hsc
    rcases List.mem_append.1 hsc with h | h
    · rcases mem_writeHeaderCells h with ⟨c, hv, hst⟩
      rw [hv, hst]
      simp [style_cell]
    · rcases mem_writeRowsCells h with ⟨i, j, c, v, rfl⟩
      exact writeDataCell_fmt_iff i j c v
  · intro i j c v w hv hw
    cases v <;> cases w <;>
      simp_all [writeDataCell, stripValueDeps, style_cell]

/-- C5 counterexample: two runs of the data-table writer on tables that
differ only in one cell's value (the number `5` vs the string `"ab"`)
produce, at the same positions, applied styles that still differ after the
number format is discarded — the alignment of the data cell flips from right
to left — so the applied style depends on the cell's value beyond the number
format. -/
theorem write_data_table_alignment_depends_on_value :
    (write_data_table [[("Units", CellValue.num 5)]] ["Units"] 3).map
        (fun sc => (sc.row, sc.col, eraseFmt sc.style))
      ≠ (write_data_table [[("Units", CellValue.str "ab")]] ["Units"] 3).map
        (fun sc => (sc.row, sc.col, eraseFmt sc.style)) := by decide

theorem write_data_table_number_format_iff_numeric_witness :
    ((∃ st, (writeDataCell 4 1 "Units" (CellValue.num 5)).style = some st
        ∧ st.numberFormat ≠ none)
      ↔ ∃ q, (writeDataCell 4 1 "Units" (CellValue.num 5)).value
          = CellValue.num q)
    ∧ stripValueDeps (writeDataCell 4 1 "Units" (CellValue.num 5)).style
        = stripValueDeps (writeDataCell 4 1 "Units" (CellValue.str "ab")).style :=
  ⟨(write_data_table_number_format_iff_numeric [[("Units", CellValue.num 5)]]
      ["Units"] 3).1 (writeDataCell 4 1 "Units" (CellValue.num 5)) (by decide),
   (write_data_table_number_format_iff_numeric [[("Units", CellValue.num 5)]]
      ["Units"] 3).2.2.2.2 4 1 "Units" (CellValue.num 5) (CellValue.str "ab")
      (by decide) (by decide)⟩

/-! ## C10 -/

theorem sort_values_desc_sorted (c : String) (rows : List Row) :
    List.Sorted (rowGE c) (sort_values_desc c rows) :=
  List.sorted_insertionSort (rowGE c) rows

theorem mem_sort_values_desc {c : String} {rows : List Row} {r : Row}
    (h : r ∈ sort_values_desc c rows) : r ∈ rows :=
  (List.perm_insertionSort (rowGE c) rows).mem_iff.1 h


theorem writeDataCell_col (i j : ℕ) (c : String) (v : CellValue) :
    (writeDataCell i j c v).col = j := by cases v <;> rfl

theorem writeDataCell_value (i j : ℕ) (c : String) (v : CellValue) :
    (writeDataCell i j c v).value = writtenValue v := by cases v <;> rfl

theorem writtenUnitsColumn_eq (rows : List Row) :
    writtenUnitsColumn rows
      = rows.map (fun r => writtenValue (Row.cell r "Units")) := by
  unfold writtenUnitsColumn
  suffices h : ∀ ri, (writeRowsCells renamedPeriodCols ri rows).filterMap
      (fun sc => if sc.col = 2 then some sc.value else none)
      = rows.map (fun r => writtenValue (Row.cell r "Units")) from h 4
  intro ri
  induction rows generalizing ri with
  | nil => rfl
  | cons r rest ih =>
      rw [writeRowsCells, List.filterMap_append, ih]
      show (writeRowCells r ri 1 renamedPeriodCols).filterMap _
          ++ _ = _
      simp [renamedPeriodCols, writeRowCells, writeDataCell_col,
        writeDataCell_value]

theorem cell_selectRow (r0 : Row) (cols : List String) {c : String}
    (hc : c ∈ cols) :
    Row.cell (cols.map (fun c' => (c', Row.cell r0 c'))) c
      = Row.cell r0 c := by
  show (List.lookup c (cols.map (fun c' => (c', Row.cell r0 c')))).getD
      CellValue.na = _
  rw [List.lookup_graph (fun c' => Row.cell r0 c') hc]
  rfl

theorem renameRow_selected_units (r0 : Row) (u s3 s4 s5 : String) :
    Row.cell (renameRow renamedPeriodCols
        ((["Size", u, s3, s4, s5] : List String).map
          (fun c' => (c', Row.cell r0 c')))) "Units"
      = Row.cell r0 u := rfl

theorem periodSheet_units_sorted (t : Table) (u s3 s4 s5 : String)
    (hne' : (u == "Size") = false)
    (hnum : ∀ r ∈ t.rows, ∃ q, Row.cell r u = CellValue.num q) :
    List.Pairwise
      (fun a b => ∃ x y, a = CellValue.num x ∧ b = CellValue.num y ∧ y ≤ x)
      (writtenUnitsColumn (periodSheetRows t ["Size", u, s3, s4, s5] u)) := by
  have hcellArg : ∀ r1 ∈ t.rows, ∃ q,
      Row.cell (("Size", sizeOfSku (Row.cell r1 "SKU")) :: r1) u
        = CellValue.num q := by
    intro r1 hr1
    rcases hnum r1 hr1 with ⟨q, hq⟩
    refine ⟨q, ?_⟩
    show (List.lookup u (("Size", sizeOfSku (Row.cell r1 "SKU")) :: r1)).getD
        CellValue.na = CellValue.num q
    rw [lookup_tail hne']
    exact hq
  have hkey : ∀ r ∈ selectCols (addSizeColumn t).rows ["Size", u, s3, s4, s5],
      ∃ q, Row.cell r u = CellValue.num q ∧
        Row.cell (renameRow renamedPeriodCols r) "Units"
          = CellValue.num q := by
    intro r hr
    rcases List.mem_map.1 hr with ⟨ra, hra, rfl⟩
    rcases List.mem_map.1 hra with ⟨r1, hr1, rfl⟩
    rcases hcellArg r1 hr1 with ⟨q, hq⟩
    refine ⟨q, ?_, ?_⟩
    · rw [cell_selectRow _ _ (by simp)]
      exact hq
    · rw [renameRow_selected_units]
      exact hq
  rw [writtenUnitsColumn_eq]
  unfold periodSheetRows
  rw [List.map_map, List.pairwise_map]
  refine List.Pairwise.imp_of_mem ?_
    (sort_values_desc_sorted u (selectCols (addSizeColumn t).rows
      ["Size", u, s3, s4, s5]))
  intro a b ha hb hab
  rcases hkey a (mem_sort_values_desc ha) with ⟨x, hxa, hxa'⟩
  rcases hkey b (mem_sort_values_desc hb) with ⟨y, hyb, hyb'⟩
  refine ⟨x, y, ?_, ?_, ?_⟩
  · show writtenValue (Row.cell (renameRow renamedPeriodCols a) "Units")
        = CellValue.num x
    rw [hxa']
    rfl
  · show writtenValue (Row.cell (renameRow renamedPeriodCols b) "Units")
        = CellValue.num y
    rw [hyb']
    rfl
  · have hka : rowKey u a = some x := by
      unfold rowKey
      rw [hxa]
      rfl
    have hkb : rowKey u b = some y := by
      unfold rowKey
      rw [hyb]
      rfl
    have : keyGE (some x) (some y) = true := by
      rw [← hka, ← hkb]
      exact hab
    exact of_decide_eq_true this

/-- C10: in each period sheet of the sales analysis report (7-Day, 30-Day
and 90-Day Performance), the data rows are written to the worksheet in
non-increasing order of the period's `Units` column: reading the written
`Units` cells in increasing row order, every earlier value is ≥ every later
value (stated for tables whose units columns are numeric; `NaN` units would
be placed last by `sort_values(na_position='last')`). -/
theorem period_sheets_rows_sorted_by_units_desc (t : Table)
    (h7 : ∀ r ∈ t.rows, ∃ q, Row.cell r "7D Units" = CellValue.num q)
    (h30 : ∀ r ∈ t.rows, ∃ q, Row.cell r "30D Units" = CellValue.num q)
    (h90 : ∀ r ∈ t.rows, ∃ q, Row.cell r "90D Units" = CellValue.num q) :
    List.Pairwise
      (fun a b => ∃ x y, a = CellValue.num x ∧ b = CellValue.num y ∧ y ≤ x)
      (writtenUnitsColumn (df_7d t))
    ∧ List.Pairwise
      (fun a b => ∃ x y, a = CellValue.num x ∧ b = CellValue.num y ∧ y ≤ x)
      (writtenUnitsColumn (df_30d t))
    ∧ List.Pairwise
      (fun a b => ∃ x y, a = CellValue.num x ∧ b = CellValue.num y ∧ y ≤ x)
      (writtenUnitsColumn (df_90d t)) :=
  ⟨periodSheet_units_sorted t "7D Units" "7D Sales" "7D Net Sales"
      "7D Avg Price" rfl h7,
   periodSheet_units_sorted t "30D Units" "30D Sales" "30D Net Sales"
      "30D Avg Price" rfl h30,
   periodSheet_units_sorted t "90D Units" "90D Sales" "90D Net Sales"
      "90D Avg Price" rfl h90⟩

theorem period_sheets_rows_sorted_by_units_desc_witness :
    List.Pairwise
      (fun a b => ∃ x y, a = CellValue.num x ∧ b = CellValue.num y ∧ y ≤ x)
      (writtenUnitsColumn (df_7d salesZeroWeekTable))
    ∧ List.Pairwise
      (fun a b => ∃ x y, a = CellValue.num x ∧ b = CellValue.num y ∧ y ≤ x)
      (writtenUnitsColumn (df_30d salesZeroWeekTable))
    ∧ List.Pairwise
      (fun a b => ∃ x y, a = CellValue.num x ∧ b = CellValue.num y ∧ y ≤ x)
      (writtenUnitsColumn (df_90d salesZeroWeekTable)) :=
  period_sheets_rows_sorted_by_units_desc salesZeroWeekTable
    (fun r hr => ⟨0, by rw [List.mem_singleton.1 hr]; rfl⟩)
    (fun r hr => ⟨20, by rw [List.mem_singleton.1 hr]; rfl⟩)
    (fun r hr => ⟨60, by rw [List.mem_singleton.1 hr]; rfl⟩)
